import Mathlib

/-!
Verification of the page-atelier core analysis pipeline.

This file is a shallow embedding of the TypeScript sources of the
page-atelier repository (packages/core/src/aggregate.ts, checker.ts,
personas.ts, settingBuilder.ts and packages/llm/src/index.ts), together
with theorems checking the natural-language specification against it.

Modelling conventions:
- JavaScript numbers are modelled as exact rationals; Math.round is
  floor of x + 1/2, which is how JS rounds (half toward positive infinity).
- Functions whose source performs a generation (LLM) call are modelled as
  pure functions of the adapter response: the response is passed as an
  argument (Option or Except values standing for the success/failure and
  data fields of the LLMResponse record).
- JS Array.prototype.sort with a consistent comparator is stable
  (ECMAScript 2019), so a comparator that orders by a rank function is
  modelled by insertion sort on the induced preorder, which is the unique
  stable sort for it.
- String.prototype.localeCompare is modelled as lexicographic comparison
  of the code points; ECMA-262 leaves the collation implementation
  defined, and on the digit and Hangul timestamp labels this program
  feeds it the root collation agrees with code-point order.
- JS truthiness on optional strings (undefined and the empty string are
  falsy) is modelled explicitly.
-/

namespace PageAtelier

/-- JS Math.round on exact rationals: half rounds toward positive infinity. -/
def jsRound (x : ℚ) : ℤ := ⌊x + 1/2⌋

/-- JS a || b for an optional string a: undefined and the empty string are falsy. -/
def jsOrString : Option String → String → String
  | some s, b => if s = "" then b else s
  | none, b => b

/-- JS falsiness of an optional string value: undefined and the empty string. -/
def jsFalsyStr : Option String → Bool
  | none => true
  | some s => s == ""

/-- Lexicographic order on strings, standing for localeCompare in the sources. -/
def strLe (a b : String) : Prop := a ≤ b

instance : DecidableRel strLe := fun a b =>
  decidable_of_iff (¬ List.Lex (· < ·) b.data a.data)
    (by
      rw [strLe, ← not_lt]
      apply not_congr
      rw [String.lt_iff_toList_lt]
      exact Iff.rfl)

instance : IsTrans String strLe := ⟨fun _ _ _ h1 h2 => le_trans h1 h2⟩

instance : IsTotal String strLe := ⟨fun a b => le_total a b⟩

/-! ## Data model (types.ts) -/

/-- Severity tiers of issues, world rules and action items. -/
inductive Severity
  | critical
  | high
  | medium
  | low
deriving DecidableEq

/-- The three consistency dimensions (Issue.type in types.ts). -/
inductive IssueType
  | continuity
  | character
  | world_rules
deriving DecidableEq

/-- String form of an IssueType, as it appears in ActionItem.affected_area. -/
def IssueType.toLabel : IssueType → String
  | .continuity => "continuity"
  | .character => "character"
  | .world_rules => "world_rules"

/-- Optional location data carried by an Issue. -/
structure IssueLocation where
  chapter : Option ℤ
  paragraph : Option ℤ
  line : Option String
deriving DecidableEq

/-- An issue found by the consistency checker (types.ts Issue). -/
structure Issue where
  type : IssueType
  severity : Severity
  description : String
  evidence : List String
  suggested_fix : Option String
  location : Option IssueLocation
deriving DecidableEq

/-- One dimension of a consistency check: a 0..100 score plus issues. -/
structure DimensionCheck where
  score : ℚ
  issues : List Issue
deriving DecidableEq

/-- A full consistency check (types.ts ConsistencyCheck). -/
structure ConsistencyCheck where
  continuity : DimensionCheck
  character : DimensionCheck
  world_rules : DimensionCheck
  overall_score : ℚ
deriving DecidableEq

/-- The three fixed persona identities. -/
inductive PersonaType
  | setting_obsessed
  | romance_sub_focused
  | traditional_martial_arts_fan
deriving DecidableEq

/-- Overall reaction categories of a persona evaluation. -/
inductive Reaction
  | very_positive
  | positive
  | neutral
  | negative
  | very_negative
deriving DecidableEq

/-- Metrics of a persona evaluation, each 0..100. -/
structure PersonaMetrics where
  satisfaction : ℚ
  engagement : ℚ
  frustration : ℚ
deriving DecidableEq

/-- Result of one persona evaluation (types.ts PersonaResult). -/
structure PersonaResult where
  persona_type : PersonaType
  persona_name : String
  persona_description : String
  metrics : PersonaMetrics
  likes : List String
  dislikes : List String
  suggestions : List String
  overall_reaction : Reaction
  sample_comment : Option String
deriving DecidableEq

/-- The verdict of the aggregate report. -/
inductive Verdict
  | PASS
  | REVISE
  | BLOCK
deriving DecidableEq

/-- Kinds of action items. -/
inductive ActionType
  | fix_required
  | improvement
  | consideration
deriving DecidableEq

/-- Estimated effort of an action item. The field is optional in types.ts
but every item this module creates carries a value. -/
inductive Effort
  | minimal
  | moderate
  | significant
deriving DecidableEq

/-- A prioritized remediation item (types.ts ActionItem). -/
structure ActionItem where
  priority : Severity
  type : ActionType
  description : String
  affected_area : String
  estimated_effort : Effort
deriving DecidableEq

/-- The weighted_scores record inside an AggregateReport. All four values
have been passed through Math.round, hence are integers. -/
structure WeightedScores where
  continuity : ℤ
  character : ℤ
  world_rules : ℤ
  total : ℤ
deriving DecidableEq

/-- The terminal output of the pipeline (types.ts AggregateReport). -/
structure AggregateReport where
  verdict : Verdict
  confidence_score : ℤ
  weighted_scores : WeightedScores
  action_items : List ActionItem
  executive_summary : String
  recommendation : String
deriving DecidableEq

/-! ## Aggregate report generator (aggregate.ts, class AggregateReportGenerator) -/

/-- The fixed weight of the continuity dimension. -/
def weightContinuity : ℚ := 0.4

/-- The fixed weight of the character dimension. -/
def weightCharacter : ℚ := 0.35

/-- The fixed weight of the world-rules dimension. -/
def weightWorldRules : ℚ := 0.25

/-- aggregate.ts calculateWeightedScores: each dimension score is rounded,
then the total is the rounded fixed-weight combination of the rounded values. -/
def calculateWeightedScores (check : ConsistencyCheck) : WeightedScores :=
  let continuity := jsRound check.continuity.score
  let character := jsRound check.character.score
  let worldRules := jsRound check.world_rules.score
  let total := jsRound
    ((continuity : ℚ) * weightContinuity +
     (character : ℚ) * weightCharacter +
     (worldRules : ℚ) * weightWorldRules)
  { continuity := continuity
    character := character
    world_rules := worldRules
    total := total }

/-- aggregate.ts determineVerdict: the pass threshold is 80, revise is 60. -/
def determineVerdict (totalScore : ℤ) : Verdict :=
  if totalScore ≥ 80 then Verdict.PASS
  else if totalScore ≥ 60 then Verdict.REVISE
  else Verdict.BLOCK

/-- Position of a severity in the priorityOrder array of aggregate.ts
(used by the sort comparator via indexOf). -/
def priorityOrderIndex : Severity → ℕ
  | .critical => 0
  | .high => 1
  | .medium => 2
  | .low => 3

/-- The preorder induced by the sort comparator of generateActionItems. -/
def itemLe (a b : ActionItem) : Prop :=
  priorityOrderIndex a.priority ≤ priorityOrderIndex b.priority

instance : DecidableRel itemLe := fun a b =>
  inferInstanceAs (Decidable (priorityOrderIndex a.priority ≤ priorityOrderIndex b.priority))

instance : IsTrans ActionItem itemLe := ⟨fun _ _ _ => Nat.le_trans⟩

instance : IsTotal ActionItem itemLe := ⟨fun _ _ => Nat.le_total _ _⟩

/-- aggregate.ts issueToActionItem: maps an issue through the three
severity-keyed lookup tables. -/
def issueToActionItem (issue : Issue) : ActionItem :=
  { priority := issue.severity
    type :=
      match issue.severity with
      | .critical => ActionType.fix_required
      | .high => ActionType.fix_required
      | .medium => ActionType.improvement
      | .low => ActionType.consideration
    description := jsOrString issue.suggested_fix issue.description
    affected_area := issue.type.toLabel
    estimated_effort :=
      match issue.severity with
      | .critical => Effort.significant
      | .high => Effort.moderate
      | .medium => Effort.moderate
      | .low => Effort.minimal }

/-- The issue-derived action items of generateActionItems: critical and
high severity issues of all three dimensions, converted in order. -/
def issueActionItems (check : ConsistencyCheck) : List ActionItem :=
  ((check.continuity.issues ++ check.character.issues ++
    check.world_rules.issues).filter fun issue =>
      issue.severity == Severity.critical || issue.severity == Severity.high).map
    issueToActionItem

/-- The persona-derived action items of generateActionItems: the first
two suggestions of a persona whose satisfaction is below 60, labeled
with the persona name. -/
def personaActionItemsOf (persona : PersonaResult) : List ActionItem :=
  if persona.metrics.satisfaction < 60 then
    (persona.suggestions.take 2).map fun suggestion =>
      { priority := Severity.high
        type := ActionType.improvement
        description := "[" ++ persona.persona_name ++ "] " ++ suggestion
        affected_area := "reader_satisfaction"
        estimated_effort := Effort.moderate }
  else []

/-- aggregate.ts generateActionItems: critical and high issues become
action items, low-satisfaction personas contribute their first two
suggestions, the list is stably sorted by priority and cut to 10. -/
def generateActionItems (check : ConsistencyCheck)
    (personaEvaluations : List PersonaResult) : List ActionItem :=
  (List.insertionSort itemLe
    (issueActionItems check ++
     personaEvaluations.flatMap personaActionItemsOf)).take 10

/-- The positiveCount value of calculateConfidenceScore. -/
def positiveReactionCount (personaEvaluations : List PersonaResult) : ℕ :=
  ((personaEvaluations.map (·.overall_reaction)).filter fun r =>
    r == Reaction.very_positive || r == Reaction.positive).length

/-- The criticalIssues value of calculateConfidenceScore. -/
def criticalIssueCount (check : ConsistencyCheck) : ℕ :=
  ((check.continuity.issues ++ check.character.issues ++
    check.world_rules.issues).filter fun i =>
      i.severity == Severity.critical).length

/-- aggregate.ts calculateConfidenceScore: bonus or penalty from persona
reactions with clamping at each step, then 5 off per critical issue,
floored at 0 and rounded. -/
def calculateConfidenceScore (check : ConsistencyCheck)
    (personaEvaluations : List PersonaResult) : ℤ :=
  let confidence0 : ℚ := check.overall_score
  let confidence1 :=
    if positiveReactionCount personaEvaluations = 3 then
      min 100 (confidence0 + 10)
    else if positiveReactionCount personaEvaluations = 0 then
      max 0 (confidence0 - 10)
    else confidence0
  let confidence2 :=
    max 0 (confidence1 - (criticalIssueCount check : ℚ) * 5)
  jsRound confidence2

/-- Verdict display strings of generateExecutiveSummary. -/
def verdictText : Verdict → String
  | .PASS => "출간 가능"
  | .REVISE => "수정 필요"
  | .BLOCK => "대폭 수정 필요"

/-- Average persona satisfaction as rendered in the executive summary.
On an empty list the JS source divides 0 by 0, yielding NaN, which the
template renders as the string NaN. -/
def avgSatisfactionText (personaEvaluations : List PersonaResult) : String :=
  match personaEvaluations with
  | [] => "NaN"
  | ps => toString (jsRound
      ((ps.map (·.metrics.satisfaction)).sum / (ps.length : ℚ)))

/-- aggregate.ts generateExecutiveSummary, the Korean template rendered
by string concatenation. -/
def generateExecutiveSummary (verdict : Verdict) (scores : WeightedScores)
    (check : ConsistencyCheck) (personaEvaluations : List PersonaResult) : String :=
  let totalIssues :=
    check.continuity.issues.length + check.character.issues.length +
      check.world_rules.issues.length
  "검수 결과: " ++ verdictText verdict ++ " (종합 점수: " ++ toString scores.total ++
    "/100)\n\n주요 평가 지표:\n- 개연성: " ++ toString scores.continuity ++
    "/100\n- 캐릭터 일관성: " ++ toString scores.character ++
    "/100\n- 세계관 규칙: " ++ toString scores.world_rules ++
    "/100\n\n발견된 이슈: 총 " ++ toString totalIssues ++
    "개\n독자 만족도: 평균 " ++ avgSatisfactionText personaEvaluations ++
    "/100\n\n" ++
    (if verdict = Verdict.PASS then
      "작품이 전반적으로 양호한 상태입니다. minor한 수정 후 출간 가능합니다."
    else if verdict = Verdict.REVISE then
      "몇 가지 중요한 이슈가 발견되었습니다. 수정 후 재검토가 필요합니다."
    else
      "심각한 문제점들이 발견되었습니다. 대폭적인 수정이 필요합니다.")

/-- The reduce callback of generateRecommendation keeps the persona with
the strictly smaller satisfaction, so ties keep the earlier element. -/
def lowestSatisfactionPersona (p : PersonaResult)
    (rest : List PersonaResult) : PersonaResult :=
  rest.foldl
    (fun minP q =>
      if q.metrics.satisfaction < minP.metrics.satisfaction then q else minP) p

/-- JS Array.prototype.reduce without an initial value: on an empty array
it throws a TypeError, otherwise it folds from the first element. -/
def reduceMinSatisfaction : List PersonaResult → Except String PersonaResult
  | [] => Except.error "Reduce of empty array with no initial value"
  | p :: rest => Except.ok (lowestSatisfactionPersona p rest)

/-- The recommendation template of generateRecommendation, parameterized
by the already-reduced lowest-satisfaction persona. -/
def recommendationBody (verdict : Verdict) (actionItems : List ActionItem)
    (lowest : PersonaResult) : String :=
  let criticalItems := actionItems.filter fun item =>
    item.priority == Severity.critical
  let highItems := actionItems.filter fun item =>
    item.priority == Severity.high
  match verdict with
  | .PASS =>
    "추천 사항:\n1. 출간 준비를 진행하셔도 좋습니다.\n2. " ++
      (if highItems.length > 0 then
        toString highItems.length ++ "개의 개선사항을 검토해보세요."
      else "세부 퇴고를 진행하세요.") ++
      "\n3. " ++ lowest.persona_name ++ " 독자층을 위한 추가 개선을 고려해보세요."
  | .REVISE =>
    "필수 수정 사항:\n1. " ++
      (if criticalItems.length > 0 then
        "긴급: " ++ toString criticalItems.length ++ "개의 심각한 이슈를 먼저 해결하세요."
      else "") ++
      "\n2. " ++ toString highItems.length ++
      "개의 중요 이슈를 수정하세요.\n3. " ++ lowest.persona_name ++
      "의 피드백을 중점적으로 반영하세요.\n4. 수정 완료 후 재검수를 요청하세요."
  | .BLOCK =>
    "긴급 조치 필요:\n1. 작품의 기본 구조부터 재검토가 필요합니다.\n2. " ++
      toString criticalItems.length ++
      "개의 심각한 문제를 우선 해결하세요.\n3. 전체적인 플롯과 캐릭터 설정을 다시 점검하세요.\n4. 필요시 전문 편집자의 도움을 받는 것을 권장합니다."

/-- aggregate.ts generateRecommendation: the empty-list reduce failure
surfaces as an Except error. -/
def generateRecommendation (verdict : Verdict) (actionItems : List ActionItem)
    (personaEvaluations : List PersonaResult) : Except String String :=
  (reduceMinSatisfaction personaEvaluations).map
    (recommendationBody verdict actionItems)

/-- aggregate.ts generateReport: assembles the aggregate report. The only
failure path is the unguarded reduce inside generateRecommendation. -/
def generateReport (consistencyCheck : ConsistencyCheck)
    (personaEvaluations : List PersonaResult) : Except String AggregateReport := do
  let weightedScores := calculateWeightedScores consistencyCheck
  let verdict := determineVerdict weightedScores.total
  let actionItems := generateActionItems consistencyCheck personaEvaluations
  let confidenceScore := calculateConfidenceScore consistencyCheck personaEvaluations
  let executiveSummary :=
    generateExecutiveSummary verdict weightedScores consistencyCheck personaEvaluations
  let recText ← generateRecommendation verdict actionItems personaEvaluations
  pure
    { verdict := verdict
      confidence_score := confidenceScore
      weighted_scores := weightedScores
      action_items := actionItems
      executive_summary := executiveSummary
      recommendation := recText }

/-- The value generateReport yields on a non-empty persona list. -/
def reportOf (consistencyCheck : ConsistencyCheck) (p : PersonaResult)
    (rest : List PersonaResult) : AggregateReport :=
  let weightedScores := calculateWeightedScores consistencyCheck
  let verdict := determineVerdict weightedScores.total
  let actionItems := generateActionItems consistencyCheck (p :: rest)
  { verdict := verdict
    confidence_score := calculateConfidenceScore consistencyCheck (p :: rest)
    weighted_scores := weightedScores
    action_items := actionItems
    executive_summary :=
      generateExecutiveSummary verdict weightedScores consistencyCheck (p :: rest)
    recommendation :=
      recommendationBody verdict actionItems (lowestSatisfactionPersona p rest) }

/-- The confidence formula as the specification words it: all
adjustments applied to the starting score first, a single clamp to
the interval from 0 to 100 at the end. -/
def claimedConfidenceScore (check : ConsistencyCheck)
    (personaEvaluations : List PersonaResult) : ℚ :=
  let bonus : ℚ :=
    if positiveReactionCount personaEvaluations = 3 then 10
    else if positiveReactionCount personaEvaluations = 0 then -10
    else 0
  min 100 (max 0
    (check.overall_score + bonus - (criticalIssueCount check : ℚ) * 5))

/-! ## Consistency checker (checker.ts, class ConsistencyChecker)

The source method performs one generation call; it is modelled as a
function of the adapter response, where none stands for a response with
success false or missing data. -/

/-- The continuity weight of the weights object in checker.ts. -/
def checkerWeightContinuity : ℚ := 0.4

/-- The character weight of the weights object in checker.ts. -/
def checkerWeightCharacter : ℚ := 0.35

/-- The world-rules weight of the weights object in checker.ts. -/
def checkerWeightWorldRules : ℚ := 0.25

/-- checker.ts calculateWeightedScore: replaces overall_score with the
rounded fixed-weight combination of the raw dimension scores. -/
def calculateWeightedScore (check : ConsistencyCheck) : ConsistencyCheck :=
  { check with
    overall_score := ((jsRound
      (check.continuity.score * checkerWeightContinuity +
       check.character.score * checkerWeightCharacter +
       check.world_rules.score * checkerWeightWorldRules) : ℤ) : ℚ) }

/-- checker.ts getDefaultCheck: the neutral fallback consistency check. -/
def getDefaultCheck : ConsistencyCheck :=
  { continuity := { score := 75, issues := [] }
    character := { score := 75, issues := [] }
    world_rules := { score := 75, issues := [] }
    overall_score := 75 }

/-- checker.ts checkConsistency as a function of the adapter response. -/
def checkConsistency (response : Option ConsistencyCheck) : ConsistencyCheck :=
  match response with
  | none => getDefaultCheck
  | some data => calculateWeightedScore data

/-! ## Persona evaluator (personas.ts, class PersonaEvaluator) -/

/-- The name field of the personas table in personas.ts. -/
def personaDisplayName : PersonaType → String
  | .setting_obsessed => "설정 과몰입형 독자"
  | .romance_sub_focused => "로판 서브주총러"
  | .traditional_martial_arts_fan => "정통무협팬"

/-- The description field of the personas table in personas.ts. -/
def personaDisplayDescr : PersonaType → String
  | .setting_obsessed =>
    "세계관 설정과 파워 시스템의 논리성을 중시하는 독자. 설정 구멍에 민감하고 체계적인 세계관을 선호함."
  | .romance_sub_focused =>
    "로맨스와 감정선, 캐릭터 관계를 중시하는 독자. 주인공과 서브 캐릭터의 감정 묘사와 관계 발전을 중요시함."
  | .traditional_martial_arts_fan =>
    "전통적인 무협 요소와 협객 정신을 중시하는 독자. 무공 수련, 강호 세계, 의리와 복수극을 선호함."

/-- personas.ts getDefaultPersonaResult: the hardcoded neutral fallback
for one persona type. -/
def getDefaultPersonaResult (personaType : PersonaType) : PersonaResult :=
  { persona_type := personaType
    persona_name := personaDisplayName personaType
    persona_description := personaDisplayDescr personaType
    metrics := { satisfaction := 70, engagement := 70, frustration := 30 }
    likes := ["기본적인 스토리 구성", "읽기 편한 문체"]
    dislikes := ["깊이 있는 분석 필요"]
    suggestions := ["더 자세한 묘사 추가", "캐릭터 개발 필요"]
    overall_reaction := Reaction.neutral
    sample_comment := some "더 읽어봐야 알 것 같습니다." }

/-- personas.ts evaluateAsSettingObsessed as a function of the adapter
response: response.data, or the fallback when absent (a present data
object is always truthy). -/
def evaluateAsSettingObsessed (response : Option PersonaResult) : PersonaResult :=
  response.getD (getDefaultPersonaResult PersonaType.setting_obsessed)

/-- personas.ts evaluateAsRomanceSubFocused as a function of the adapter response. -/
def evaluateAsRomanceSubFocused (response : Option PersonaResult) : PersonaResult :=
  response.getD (getDefaultPersonaResult PersonaType.romance_sub_focused)

/-- personas.ts evaluateAsTraditionalMartialArtsFan as a function of the adapter response. -/
def evaluateAsTraditionalMartialArtsFan (response : Option PersonaResult) : PersonaResult :=
  response.getD (getDefaultPersonaResult PersonaType.traditional_martial_arts_fan)

/-- personas.ts evaluateAllPersonas: Promise.all over the three
independent evaluations. Promise.all resolves with results in the order
of the argument array, independent of completion order, and none of the
three promises ever rejects (each maps failure to its own fallback), so
the call is modelled as this pure function of the three responses. -/
def evaluateAllPersonas (r1 r2 r3 : Option PersonaResult) : List PersonaResult :=
  [evaluateAsSettingObsessed r1,
   evaluateAsRomanceSubFocused r2,
   evaluateAsTraditionalMartialArtsFan r3]

/-! ## Setting builder (settingBuilder.ts, class SettingBuilder) -/

/-- Character roles. -/
inductive Role
  | protagonist
  | antagonist
  | supporting
  | minor
deriving DecidableEq

/-- Relationship kinds. -/
inductive RelKind
  | family
  | friend
  | enemy
  | love
  | mentor
  | rival
  | other
deriving DecidableEq

/-- A relationship entry of a character (types.ts Relationship). -/
structure Relationship where
  character : String
  type : RelKind
  description : String
deriving DecidableEq

/-- A character profile (types.ts Character). -/
structure Character where
  name : String
  role : Role
  traits : List String
  goals : List String
  relationships : List Relationship
  speech_pattern : Option String
  taboo_actions : Option (List String)
deriving DecidableEq

/-- World-rule categories. -/
inductive RuleCategory
  | magic
  | society
  | technology
  | culture
  | physics
  | other
deriving DecidableEq

/-- A world rule (types.ts WorldRule); importance reuses the severity enum. -/
structure WorldRule where
  category : RuleCategory
  rule : String
  importance : Severity
  evidence : Option String
deriving DecidableEq

/-- A timeline event (types.ts TimelineEvent). -/
structure TimelineEvent where
  timestamp : String
  event : String
  involved_characters : List String
  importance : Severity
deriving DecidableEq

/-- A full setting note (types.ts SettingNote). -/
structure SettingNote where
  title : String
  genre : List String
  characters : List Character
  world_rules : List WorldRule
  timeline : List TimelineEvent
  summary : String
deriving DecidableEq

/-- The default speech pattern assigned to a protagonist lacking one. -/
def defaultSpeechPattern : String := "표준어 사용, 정중한 어투"

/-- The default evidence assigned to a critical world rule lacking one. -/
def defaultCriticalEvidence : String := "텍스트 전반에 걸쳐 암시됨"

/-- The timeline sort comparator of enhanceSettingNote: localeCompare on
timestamps, modelled as the lexicographic string order. -/
def tsLe (a b : TimelineEvent) : Prop := strLe a.timestamp b.timestamp

instance : DecidableRel tsLe := fun a b =>
  inferInstanceAs (Decidable (strLe a.timestamp b.timestamp))

instance : IsTrans TimelineEvent tsLe :=
  ⟨fun _ _ _ h1 h2 => trans_of strLe h1 h2⟩

instance : IsTotal TimelineEvent tsLe :=
  ⟨fun a b => total_of strLe a.timestamp b.timestamp⟩

/-- The per-character body of the map inside enhanceSettingNote: prune
relationships referencing unextracted names, then default a missing
protagonist speech pattern. -/
def enhanceCharacter (characterNames : List String) (character : Character) :
    Character :=
  let pruned :=
    { character with
      relationships := character.relationships.filter fun rel =>
        characterNames.contains rel.character }
  if pruned.role == Role.protagonist && jsFalsyStr pruned.speech_pattern then
    { pruned with speech_pattern := some defaultSpeechPattern }
  else pruned

/-- The per-rule body of the map inside enhanceSettingNote: default the
evidence of a critical rule lacking one. -/
def enhanceWorldRule (rule : WorldRule) : WorldRule :=
  if rule.importance == Severity.critical && jsFalsyStr rule.evidence then
    { rule with evidence := some defaultCriticalEvidence }
  else rule

/-- settingBuilder.ts enhanceSettingNote: prunes dangling relationship
references, defaults a missing protagonist speech pattern, sorts the
timeline by timestamp, and defaults missing evidence on critical rules. -/
def enhanceSettingNote (settingNote : SettingNote) : SettingNote :=
  let characterNames := settingNote.characters.map (·.name)
  { settingNote with
    characters := settingNote.characters.map (enhanceCharacter characterNames)
    timeline := List.insertionSort tsLe settingNote.timeline
    world_rules := settingNote.world_rules.map enhanceWorldRule }

/-- settingBuilder.ts generateSettingNote as a function of the adapter
response: on failure it throws a domain error carrying the adapter error
message, on success it post-processes the model. -/
def generateSettingNote (response : Except String SettingNote) :
    Except String SettingNote :=
  match response with
  | Except.error e => Except.error ("Failed to generate setting note: " ++ e)
  | Except.ok data => Except.ok (enhanceSettingNote data)

/-- settingBuilder.ts extractCharacters as a function of the adapter
response: response.data or the empty list. -/
def extractCharacters (response : Option (List Character)) : List Character :=
  response.getD []

/-- settingBuilder.ts extractWorldRules as a function of the adapter response. -/
def extractWorldRules (response : Option (List WorldRule)) : List WorldRule :=
  response.getD []

/-- settingBuilder.ts extractTimeline as a function of the adapter response. -/
def extractTimeline (response : Option (List TimelineEvent)) : List TimelineEvent :=
  response.getD []

/-! ## Generation adapter (packages/llm, class LLMAdapter / GeminiAdapter)

A backend invocation attempt is modelled by its outcome: attempts i is
an exception (covering transport failures and the Invalid JSON response
error thrown when parsing or schema validation fails, which the source
throws inside the retried closure) or a value paired with the raw usage
metadata. -/

/-- The default retry ceiling from the LLMAdapter constructor. -/
def defaultMaxRetries : ℕ := 3

/-- config.maxRetries with the JS nullish-coalescing default. -/
def resolveMaxRetries (configMaxRetries : Option ℕ) : ℕ :=
  configMaxRetries.getD defaultMaxRetries

/-- The backoff delay after failed attempt i, in milliseconds. -/
def backoffDelay (attempt : ℕ) : ℕ := min (1000 * 2 ^ attempt) 10000

/-- Raw usage metadata as returned by the Gemini backend. -/
structure RawUsage where
  promptTokenCount : Option ℕ
  candidatesTokenCount : Option ℕ
  totalTokenCount : Option ℕ
deriving DecidableEq

/-- The normalized token-count shape of LLMResponse.usage. -/
structure Usage where
  promptTokens : ℕ
  completionTokens : ℕ
  totalTokens : ℕ
deriving DecidableEq

/-- The LLMResponse record of packages/llm. -/
structure LLMResponse (α : Type) where
  success : Bool
  data : Option α
  error : Option String
  usage : Option Usage
deriving DecidableEq

/-- Normalization of raw usage metadata in generateJSON (each count
defaults to 0 when absent). -/
def normalizeUsage : Option RawUsage → Option Usage
  | none => none
  | some u =>
    some
      { promptTokens := u.promptTokenCount.getD 0
        completionTokens := u.candidatesTokenCount.getD 0
        totalTokens := u.totalTokenCount.getD 0 }

/-- The retry loop body of retryWithBackoff: i is the current attempt
index and the ℕ argument the number of attempts still allowed. Returns
the outcome and the list of backoff delays slept, in order. The final
failed attempt rethrows without sleeping. -/
def retryGo (attempts : ℕ → Except String α) (i : ℕ) :
    ℕ → Except String α × List ℕ
  | 0 => (Except.error "Max retries exceeded", [])
  | remaining + 1 =>
    match attempts i with
    | Except.ok a => (Except.ok a, [])
    | Except.error e =>
      if remaining = 0 then (Except.error e, [])
      else
        let next := retryGo attempts (i + 1) remaining
        (next.1, backoffDelay i :: next.2)

/-- llm index.ts retryWithBackoff over a trace of attempt outcomes. -/
def retryWithBackoff (attempts : ℕ → Except String α) (retries : ℕ) :
    Except String α × List ℕ :=
  retryGo attempts 0 retries

/-- llm index.ts GeminiAdapter.generateJSON: wraps the retried invocation
and converts the outcome into an LLMResponse instead of rethrowing. -/
def generateJSON (attempts : ℕ → Except String (α × Option RawUsage))
    (maxRetries : ℕ) : LLMResponse α × List ℕ :=
  match retryWithBackoff attempts maxRetries with
  | (Except.ok result, delays) =>
    ({ success := true
       data := some result.1
       error := none
       usage := normalizeUsage result.2 }, delays)
  | (Except.error e, delays) =>
    ({ success := false
       data := none
       error := some e
       usage := none }, delays)

/-! ## Concrete fixtures used by witnesses and counterexamples -/

/-- A critical continuity issue with no suggested fix. -/
def critIssue : Issue :=
  { type := IssueType.continuity
    severity := Severity.critical
    description := "인과관계 붕괴"
    evidence := ["증거1"]
    suggested_fix := none
    location := none }

/-- A high-severity character issue carrying a suggested fix. -/
def highIssue : Issue :=
  { type := IssueType.character
    severity := Severity.high
    description := "말투 불일치"
    evidence := []
    suggested_fix := some "말투를 통일하세요"
    location := none }

/-- The consistency check of the spec scenario with scores 90, 85, 95. -/
def check909585 : ConsistencyCheck :=
  { continuity := { score := 90, issues := [] }
    character := { score := 85, issues := [] }
    world_rules := { score := 95, issues := [] }
    overall_score := 90 }

/-- A successful adapter payload whose recomputed check coincides with the
fallback default even though it comes from the success path. -/
def ccCoincide : ConsistencyCheck :=
  { continuity := { score := 75, issues := [] }
    character := { score := 75, issues := [] }
    world_rules := { score := 75, issues := [] }
    overall_score := 0 }

/-- Overall score 95 with one critical issue: the input separating
stepwise clamping from a single final clamp. -/
def ccConf : ConsistencyCheck :=
  { continuity := { score := 90, issues := [critIssue] }
    character := { score := 90, issues := [] }
    world_rules := { score := 90, issues := [] }
    overall_score := 95 }

/-- Overall score 80, no issues (confidence example input). -/
def cc80 : ConsistencyCheck :=
  { continuity := { score := 80, issues := [] }
    character := { score := 80, issues := [] }
    world_rules := { score := 80, issues := [] }
    overall_score := 80 }

/-- Overall score 20 with ten critical issues (clamp-at-zero example input). -/
def ccTenCrit : ConsistencyCheck :=
  { continuity := { score := 20, issues := List.replicate 10 critIssue }
    character := { score := 20, issues := [] }
    world_rules := { score := 20, issues := [] }
    overall_score := 20 }

/-- A very positive persona result. -/
def pVP : PersonaResult :=
  { persona_type := PersonaType.setting_obsessed
    persona_name := "긍정 독자"
    persona_description := "테스트"
    metrics := { satisfaction := 80, engagement := 80, frustration := 20 }
    likes := []
    dislikes := []
    suggestions := []
    overall_reaction := Reaction.very_positive
    sample_comment := none }

/-- A negative persona result with satisfaction below 60 and three suggestions. -/
def pLow : PersonaResult :=
  { persona_type := PersonaType.romance_sub_focused
    persona_name := "불만 독자"
    persona_description := "테스트"
    metrics := { satisfaction := 50, engagement := 40, frustration := 70 }
    likes := []
    dislikes := ["전개"]
    suggestions := ["제안1", "제안2", "제안3"]
    overall_reaction := Reaction.negative
    sample_comment := none }

/-- A self-referencing relationship entry. -/
def relSelf : Relationship :=
  { character := "홍길동", type := RelKind.other, description := "자기 자신" }

/-- A relationship entry referencing a name that is not extracted. -/
def relDangling : Relationship :=
  { character := "없는사람", type := RelKind.friend, description := "유령" }

/-- A protagonist lacking a speech pattern and carrying a dangling
relationship reference. -/
def chProt : Character :=
  { name := "홍길동"
    role := Role.protagonist
    traits := ["대담함"]
    goals := ["입신양명"]
    relationships := [relSelf, relDangling]
    speech_pattern := none
    taboo_actions := none }

/-- A critical world rule lacking evidence. -/
def wrCrit : WorldRule :=
  { category := RuleCategory.magic
    rule := "도술은 수련으로만 얻는다"
    importance := Severity.critical
    evidence := none }

/-- Two timeline events given out of lexicographic order. -/
def evLater : TimelineEvent :=
  { timestamp := "2장", event := "사건B", involved_characters := [], importance := Severity.medium }

/-- The lexicographically earlier timeline event. -/
def evEarlier : TimelineEvent :=
  { timestamp := "1장", event := "사건A", involved_characters := [], importance := Severity.high }

/-- A small setting note exercising all four enhancement steps. -/
def sampleNote : SettingNote :=
  { title := "홍길동전"
    genre := ["고전", "무협"]
    characters := [chProt]
    world_rules := [wrCrit]
    timeline := [evLater, evEarlier]
    summary := "요약" }

/-- An attempt trace whose first invocation fails and second succeeds. -/
def attemptsW : ℕ → Except String (ℕ × Option RawUsage) := fun i =>
  if i = 0 then Except.error "boom" else Except.ok (7, none)

/-! ## Helper lemmas -/

theorem jsRound_nonneg {x : ℚ} (h : 0 ≤ x) : 0 ≤ jsRound x :=
  Int.floor_nonneg.mpr (by linarith)

theorem jsRound_le_hundred {x : ℚ} (h : x ≤ 100) : jsRound x ≤ 100 := by
  have h2 : (⌊(100 : ℚ) + 1/2⌋ : ℤ) = 100 := by norm_num
  calc jsRound x ≤ ⌊(100 : ℚ) + 1/2⌋ := Int.floor_le_floor (by linarith)
    _ = 100 := h2

/-! ## Claim theorems -/

/-- C1: the weighted scores of generateReport round each dimension score
individually and set total to the rounding of 0.40, 0.35, 0.25 times the
already-rounded continuity, character and world-rules scores; on scores
90, 85, 95 the total is 90. -/
theorem C1_weighted_scores (check : ConsistencyCheck) (p : PersonaResult)
    (rest : List PersonaResult) :
    generateReport check (p :: rest) = Except.ok (reportOf check p rest) ∧
    (reportOf check p rest).weighted_scores = calculateWeightedScores check ∧
    (calculateWeightedScores check).continuity = jsRound check.continuity.score ∧
    (calculateWeightedScores check).character = jsRound check.character.score ∧
    (calculateWeightedScores check).world_rules = jsRound check.world_rules.score ∧
    (calculateWeightedScores check).total =
      jsRound ((jsRound check.continuity.score : ℚ) * (40 / 100) +
               (jsRound check.character.score : ℚ) * (35 / 100) +
               (jsRound check.world_rules.score : ℚ) * (25 / 100)) ∧
    (calculateWeightedScores check909585).total = 90 := by
  refine ⟨rfl, rfl, rfl, rfl, rfl, ?_, ?_⟩
  · show jsRound _ = jsRound _
    norm_num [weightContinuity, weightCharacter, weightWorldRules]
  · norm_num [calculateWeightedScores, jsRound, check909585,
      weightContinuity, weightCharacter, weightWorldRules]

/-- C2: the verdict is a pure function of the weighted total with the
fixed thresholds 80 and 60, and the boundary values 80, 79, 60, 59 fall
on PASS, REVISE, REVISE and BLOCK respectively. -/
theorem C2_verdict (t : ℤ) (check : ConsistencyCheck) (p : PersonaResult)
    (rest : List PersonaResult) :
    (80 ≤ t → determineVerdict t = Verdict.PASS) ∧
    (60 ≤ t → t < 80 → determineVerdict t = Verdict.REVISE) ∧
    (t < 60 → determineVerdict t = Verdict.BLOCK) ∧
    determineVerdict 80 = Verdict.PASS ∧
    determineVerdict 79 = Verdict.REVISE ∧
    determineVerdict 60 = Verdict.REVISE ∧
    determineVerdict 59 = Verdict.BLOCK ∧
    (reportOf check p rest).verdict =
      determineVerdict (calculateWeightedScores check).total := by
  refine ⟨?_, ?_, ?_, by decide, by decide, by decide, by decide, rfl⟩
  · intro h
    unfold determineVerdict
    rw [if_pos (by omega)]
  · intro h1 h2
    unfold determineVerdict
    rw [if_neg (by omega), if_pos (by omega)]
  · intro h
    unfold determineVerdict
    rw [if_neg (by omega), if_neg (by omega)]

/-- C2 witness: the three threshold implications applied at 100, 70, 30. -/
theorem C2_verdict_witness :
    determineVerdict 100 = Verdict.PASS ∧
    determineVerdict 70 = Verdict.REVISE ∧
    determineVerdict 30 = Verdict.BLOCK :=
  ⟨(C2_verdict 100 check909585 pVP []).1 (by decide),
   (C2_verdict 70 check909585 pVP []).2.1 (by decide) (by decide),
   (C2_verdict 30 check909585 pVP []).2.2.1 (by decide)⟩

/-- C6: the persona evaluator yields exactly the three per-persona
evaluations in the fixed order, each position falling back to the
hardcoded neutral result for its own persona type exactly when its own
response lacks data and passing the response data through otherwise. -/
theorem C6_personas (r1 r2 r3 : Option PersonaResult) :
    evaluateAllPersonas r1 r2 r3 =
      [evaluateAsSettingObsessed r1, evaluateAsRomanceSubFocused r2,
       evaluateAsTraditionalMartialArtsFan r3] ∧
    (evaluateAllPersonas r1 r2 r3).length = 3 ∧
    (r1 = none →
      evaluateAsSettingObsessed r1 =
        getDefaultPersonaResult PersonaType.setting_obsessed) ∧
    (∀ d, r1 = some d → evaluateAsSettingObsessed r1 = d) ∧
    (r2 = none →
      evaluateAsRomanceSubFocused r2 =
        getDefaultPersonaResult PersonaType.romance_sub_focused) ∧
    (∀ d, r2 = some d → evaluateAsRomanceSubFocused r2 = d) ∧
    (r3 = none →
      evaluateAsTraditionalMartialArtsFan r3 =
        getDefaultPersonaResult PersonaType.traditional_martial_arts_fan) ∧
    (∀ d, r3 = some d → evaluateAsTraditionalMartialArtsFan r3 = d) ∧
    (∀ pt, (getDefaultPersonaResult pt).persona_type = pt) ∧
    (∀ pt, (getDefaultPersonaResult pt).metrics =
      { satisfaction := 70, engagement := 70, frustration := 30 }) ∧
    (∀ pt, (getDefaultPersonaResult pt).overall_reaction = Reaction.neutral) := by
  refine ⟨rfl, rfl, ?_, ?_, ?_, ?_, ?_, ?_, ?_, ?_, ?_⟩
  · intro h; subst h; rfl
  · intro d h; subst h; rfl
  · intro h; subst h; rfl
  · intro d h; subst h; rfl
  · intro h; subst h; rfl
  · intro d h; subst h; rfl
  · intro pt; cases pt <;> rfl
  · intro pt; cases pt <;> rfl
  · intro pt; cases pt <;> rfl

/-- C6 witness: the mixed trace where the first and third calls fail and
the second succeeds. -/
theorem C6_personas_witness :
    evaluateAsSettingObsessed none =
      getDefaultPersonaResult PersonaType.setting_obsessed ∧
    evaluateAsRomanceSubFocused (some pVP) = pVP ∧
    evaluateAsTraditionalMartialArtsFan none =
      getDefaultPersonaResult PersonaType.traditional_martial_arts_fan := by
  obtain ⟨-, -, h3, -, -, h6, h7, -, -, -, -⟩ := C6_personas none (some pVP) none
  exact ⟨h3 rfl, h6 pVP rfl, h7 rfl⟩

/-- C7: generateReport never performs a generation call and is total on
non-empty persona lists, but on the empty persona list (produced when
personas are skipped) the unguarded reduce inside generateRecommendation
throws, so the aggregate reporter does have a failure mode. -/
theorem C7_generateReport_empty_throws (check : ConsistencyCheck)
    (p : PersonaResult) (rest : List PersonaResult) :
    generateReport check [] =
      Except.error "Reduce of empty array with no initial value" ∧
    generateReport check (p :: rest) = Except.ok (reportOf check p rest) :=
  ⟨rfl, rfl⟩

/-- C8: on adapter failure generateSettingNote raises a domain error
while each narrower extraction returns the empty collection; on success
generateSettingNote returns the post-processed model and the narrower
extractions pass the data through. -/
theorem C8_extraction_failure_modes (e : String) (s : SettingNote)
    (cs : List Character) (ws : List WorldRule) (ts : List TimelineEvent) :
    generateSettingNote (Except.error e) =
      Except.error ("Failed to generate setting note: " ++ e) ∧
    generateSettingNote (Except.ok s) = Except.ok (enhanceSettingNote s) ∧
    extractCharacters none = [] ∧
    extractCharacters (some cs) = cs ∧
    extractWorldRules none = [] ∧
    extractWorldRules (some ws) = ws ∧
    extractTimeline none = [] ∧
    extractTimeline (some ts) = ts :=
  ⟨rfl, rfl, rfl, rfl, rfl, rfl, rfl, rfl⟩

/-- C3 counterexample: the fixed default is not returned only on adapter
failure; a successful response whose data carries three 75 scores, no
issues and a different supplied overall score recomputes to exactly the
default value, refuting the stated only-if direction. -/
theorem C3_counterexample :
    checkConsistency (some ccCoincide) = getDefaultCheck ∧
    some ccCoincide ≠ (none : Option ConsistencyCheck) := by
  constructor
  · show calculateWeightedScore ccCoincide = getDefaultCheck
    simp only [calculateWeightedScore, ccCoincide, getDefaultCheck]
    norm_num [jsRound, checkerWeightContinuity, checkerWeightCharacter,
      checkerWeightWorldRules]
  · simp

/-- C3 amended: checkConsistency returns the fixed default whenever the
adapter fails (though a successful response may coincide with that
value); on success it keeps the three dimension records and recomputes
overall_score locally as the rounded 0.40, 0.35, 0.25 combination,
ignoring whatever overall score the backend supplied. -/
theorem C3_checkConsistency (response : Option ConsistencyCheck) :
    (response = none → checkConsistency response = getDefaultCheck) ∧
    (∀ data, response = some data →
      (checkConsistency response).continuity = data.continuity ∧
      (checkConsistency response).character = data.character ∧
      (checkConsistency response).world_rules = data.world_rules ∧
      (checkConsistency response).overall_score =
        ((jsRound (data.continuity.score * (40 / 100) +
                   data.character.score * (35 / 100) +
                   data.world_rules.score * (25 / 100)) : ℤ) : ℚ)) ∧
    (∀ data x,
      checkConsistency (some { data with overall_score := x }) =
        checkConsistency (some data)) := by
  refine ⟨?_, ?_, ?_⟩
  · intro h; subst h; rfl
  · intro data h; subst h
    refine ⟨rfl, rfl, rfl, ?_⟩
    show ((jsRound _ : ℤ) : ℚ) = ((jsRound _ : ℤ) : ℚ)
    norm_num [checkerWeightContinuity, checkerWeightCharacter,
      checkerWeightWorldRules]
  · intro data x; rfl

/-- C3 witness: the failure branch and a success branch instantiated. -/
theorem C3_checkConsistency_witness :
    checkConsistency none = getDefaultCheck ∧
    (checkConsistency (some check909585)).continuity = check909585.continuity :=
  ⟨(C3_checkConsistency none).1 rfl,
   ((C3_checkConsistency (some check909585)).2.1 check909585 rfl).1⟩

/-- C5 counterexample: with overall score 95, one critical issue and
three very positive personas, the code clamps the bonus at 100 before
deducting (yielding 95), while the claimed formula with a single final
clamp yields 100. -/
theorem C5_counterexample :
    calculateConfidenceScore ccConf [pVP, pVP, pVP] = 95 ∧
    (reportOf ccConf pVP [pVP, pVP]).confidence_score = 95 ∧
    claimedConfidenceScore ccConf [pVP, pVP, pVP] = 100 ∧
    (95 : ℤ) ≠ 100 := by
  refine ⟨?_, ?_, ?_, by decide⟩
  · norm_num [calculateConfidenceScore, positiveReactionCount,
      criticalIssueCount, ccConf, pVP, critIssue, jsRound]
  · show calculateConfidenceScore ccConf [pVP, pVP, pVP] = 95
    norm_num [calculateConfidenceScore, positiveReactionCount,
      criticalIssueCount, ccConf, pVP, critIssue, jsRound]
  · norm_num [claimedConfidenceScore, positiveReactionCount,
      criticalIssueCount, ccConf, pVP, critIssue]

/-- C5 amended: the confidence score applies its clamps stepwise (the
plus-10 bonus is capped at 100 before the per-critical-issue deductions,
each subtraction is floored at 0) and the result always lies between 0
and 100 when the overall score does; overall 80 with three very positive
personas gives 90, and ten critical issues with no positive persona
floor at 0. -/
theorem C5_confidence (check : ConsistencyCheck) (ps : List PersonaResult)
    (p : PersonaResult) (rest : List PersonaResult) :
    calculateConfidenceScore check ps =
      jsRound (max 0
        ((if positiveReactionCount ps = 3 then
            min 100 (check.overall_score + 10)
          else if positiveReactionCount ps = 0 then
            max 0 (check.overall_score - 10)
          else check.overall_score) -
         (criticalIssueCount check : ℚ) * 5)) ∧
    (0 ≤ check.overall_score → check.overall_score ≤ 100 →
      0 ≤ calculateConfidenceScore check ps ∧
      calculateConfidenceScore check ps ≤ 100) ∧
    calculateConfidenceScore cc80 [pVP, pVP, pVP] = 90 ∧
    calculateConfidenceScore ccTenCrit [pLow, pLow, pLow] = 0 ∧
    (reportOf check p rest).confidence_score =
      calculateConfidenceScore check (p :: rest) := by
  refine ⟨rfl, ?_, ?_, ?_, rfl⟩
  · intro h0 h100
    have hc1le :
        (if positiveReactionCount ps = 3 then
          min 100 (check.overall_score + 10)
        else if positiveReactionCount ps = 0 then
          max 0 (check.overall_score - 10)
        else check.overall_score) ≤ 100 := by
      split_ifs with h1 h2
      · exact min_le_left _ _
      · exact max_le (by norm_num) (by linarith)
      · exact h100
    have hk : (0 : ℚ) ≤ (criticalIssueCount check : ℚ) * 5 := by positivity
    constructor
    · exact jsRound_nonneg (le_max_left _ _)
    · exact jsRound_le_hundred (max_le (by norm_num) (by linarith))
  · norm_num [calculateConfidenceScore, positiveReactionCount,
      criticalIssueCount, cc80, pVP, jsRound]
  · simp +decide only [calculateConfidenceScore, positiveReactionCount,
      criticalIssueCount, ccTenCrit, pLow, critIssue, List.replicate,
      List.map_cons, List.map_nil, List.filter_cons, List.filter_nil,
      List.length_cons, List.length_nil, List.length_append]
    norm_num [jsRound]

/-- C5 witness: the bounds applied at the default check with no personas. -/
theorem C5_confidence_witness :
    0 ≤ calculateConfidenceScore getDefaultCheck [] ∧
    calculateConfidenceScore getDefaultCheck [] ≤ 100 :=
  (C5_confidence getDefaultCheck [] pVP []).2.1
    (by norm_num [getDefaultCheck]) (by norm_num [getDefaultCheck])

/-- C4: the action item list is the stable priority sort of the
issue-derived items (critical and high issues only, priority equal to
the severity, type fix_required, effort significant or moderate) and the
persona-derived items (first two suggestions of personas with
satisfaction below 60, high priority, improvement), truncated to 10,
hence of length at most 10 and non-increasing in priority. -/
theorem C4_action_items (check : ConsistencyCheck) (ps : List PersonaResult)
    (p : PersonaResult) (rest : List PersonaResult) :
    (generateActionItems check ps).length ≤ 10 ∧
    List.Sorted itemLe (generateActionItems check ps) ∧
    generateActionItems check ps =
      (List.insertionSort itemLe
        (issueActionItems check ++ ps.flatMap personaActionItemsOf)).take 10 ∧
    issueActionItems check =
      ((check.continuity.issues ++ check.character.issues ++
        check.world_rules.issues).filter fun issue =>
          issue.severity == Severity.critical ||
          issue.severity == Severity.high).map issueToActionItem ∧
    (∀ issue : Issue, (issueToActionItem issue).priority = issue.severity) ∧
    (∀ issue : Issue, issue.severity = Severity.critical →
      (issueToActionItem issue).type = ActionType.fix_required ∧
      (issueToActionItem issue).estimated_effort = Effort.significant) ∧
    (∀ issue : Issue, issue.severity = Severity.high →
      (issueToActionItem issue).type = ActionType.fix_required ∧
      (issueToActionItem issue).estimated_effort = Effort.moderate) ∧
    (∀ q : PersonaResult, q.metrics.satisfaction < 60 →
      personaActionItemsOf q =
        (q.suggestions.take 2).map fun suggestion =>
          { priority := Severity.high
            type := ActionType.improvement
            description := "[" ++ q.persona_name ++ "] " ++ suggestion
            affected_area := "reader_satisfaction"
            estimated_effort := Effort.moderate }) ∧
    (∀ q : PersonaResult, ¬ q.metrics.satisfaction < 60 →
      personaActionItemsOf q = []) ∧
    (∀ a, a ∈ generateActionItems check ps →
      a ∈ issueActionItems check ∨ ∃ q ∈ ps, a ∈ personaActionItemsOf q) ∧
    (reportOf check p rest).action_items = generateActionItems check (p :: rest) := by
  refine ⟨List.length_take_le 10 _,
    List.Pairwise.sublist (List.take_sublist 10 _)
      (List.sorted_insertionSort itemLe _),
    rfl, rfl, fun _ => rfl, ?_, ?_, ?_, ?_, ?_, rfl⟩
  · intro issue h
    exact ⟨by simp [issueToActionItem, h], by simp [issueToActionItem, h]⟩
  · intro issue h
    exact ⟨by simp [issueToActionItem, h], by simp [issueToActionItem, h]⟩
  · intro q h
    simp [personaActionItemsOf, h]
  · intro q h
    simp [personaActionItemsOf, h]
  · intro a ha
    have h1 : a ∈ List.insertionSort itemLe
        (issueActionItems check ++ ps.flatMap personaActionItemsOf) :=
      (List.take_sublist 10 _).subset ha
    have h2 : a ∈ issueActionItems check ++ ps.flatMap personaActionItemsOf :=
      (List.perm_insertionSort itemLe _).mem_iff.mp h1
    rcases List.mem_append.mp h2 with h | h
    · exact Or.inl h
    · exact Or.inr (List.mem_flatMap.mp h)

/-- C4 witness: the severity mappings at concrete issues and the
high-satisfaction persona contributing nothing. -/
theorem C4_action_items_witness :
    (issueToActionItem critIssue).type = ActionType.fix_required ∧
    (issueToActionItem critIssue).estimated_effort = Effort.significant ∧
    (issueToActionItem highIssue).type = ActionType.fix_required ∧
    (issueToActionItem highIssue).estimated_effort = Effort.moderate ∧
    personaActionItemsOf pVP = [] := by
  obtain ⟨-, -, -, -, -, h6, h7, -, h9, -, -⟩ :=
    C4_action_items getDefaultCheck [] pVP []
  obtain ⟨ha, hb⟩ := h6 critIssue rfl
  obtain ⟨hc, hd⟩ := h7 highIssue rfl
  exact ⟨ha, hb, hc, hd, h9 pVP (by norm_num [pVP])⟩

theorem enhanceCharacter_name (ns : List String) (c : Character) :
    (enhanceCharacter ns c).name = c.name := by
  simp only [enhanceCharacter]
  split <;> rfl

theorem enhanceCharacter_role (ns : List String) (c : Character) :
    (enhanceCharacter ns c).role = c.role := by
  simp only [enhanceCharacter]
  split <;> rfl

theorem enhanceCharacter_relationships (ns : List String) (c : Character) :
    (enhanceCharacter ns c).relationships =
      c.relationships.filter fun rel => ns.contains rel.character := by
  simp only [enhanceCharacter]
  split <;> rfl

theorem enhanceCharacter_speech (ns : List String) (c : Character)
    (h : c.role = Role.protagonist) :
    ∃ sp, (enhanceCharacter ns c).speech_pattern = some sp ∧ sp ≠ "" := by
  simp only [enhanceCharacter]
  cases hsp : c.speech_pattern with
  | none =>
    refine ⟨defaultSpeechPattern, ?_, by decide⟩
    simp [h, jsFalsyStr, hsp]
  | some s =>
    by_cases hs : s = ""
    · subst hs
      refine ⟨defaultSpeechPattern, ?_, by decide⟩
      simp [h, jsFalsyStr, hsp]
    · refine ⟨s, ?_, hs⟩
      simp [h, jsFalsyStr, hsp, hs]

theorem enhanceWorldRule_importance (w : WorldRule) :
    (enhanceWorldRule w).importance = w.importance := by
  simp only [enhanceWorldRule]
  split <;> rfl

theorem enhanceWorldRule_evidence (w : WorldRule)
    (h : w.importance = Severity.critical) :
    ∃ ev, (enhanceWorldRule w).evidence = some ev ∧ ev ≠ "" := by
  simp only [enhanceWorldRule]
  cases hev : w.evidence with
  | none =>
    refine ⟨defaultCriticalEvidence, ?_, by decide⟩
    simp [h, jsFalsyStr, hev]
  | some s =>
    by_cases hs : s = ""
    · subst hs
      refine ⟨defaultCriticalEvidence, ?_, by decide⟩
      simp [h, jsFalsyStr, hev]
    · refine ⟨s, ?_, hs⟩
      simp [h, jsFalsyStr, hev, hs]

theorem enhance_names (s : SettingNote) :
    (enhanceSettingNote s).characters.map (·.name) =
      s.characters.map (·.name) := by
  show (s.characters.map (enhanceCharacter (s.characters.map (·.name)))).map
      (·.name) = s.characters.map (·.name)
  rw [List.map_map]
  exact List.map_congr_left fun c _ => enhanceCharacter_name _ c

/-- C10: every setting model passed through the post-processing step
satisfies all four postconditions: relationship references point at
extracted names, protagonists carry a non-empty speech pattern, the
timeline is sorted by lexicographic timestamp comparison, and critical
world rules carry non-empty evidence. -/
theorem C10_enhance (s : SettingNote) :
    (∀ c, c ∈ (enhanceSettingNote s).characters → ∀ r, r ∈ c.relationships →
      r.character ∈ (enhanceSettingNote s).characters.map (·.name)) ∧
    (∀ c, c ∈ (enhanceSettingNote s).characters → c.role = Role.protagonist →
      ∃ sp, c.speech_pattern = some sp ∧ sp ≠ "") ∧
    List.Sorted tsLe (enhanceSettingNote s).timeline ∧
    (∀ w, w ∈ (enhanceSettingNote s).world_rules →
      w.importance = Severity.critical →
      ∃ ev, w.evidence = some ev ∧ ev ≠ "") := by
  have hchars : (enhanceSettingNote s).characters =
      s.characters.map (enhanceCharacter (s.characters.map (·.name))) := rfl
  refine ⟨?_, ?_, ?_, ?_⟩
  · intro c hc r hr
    rw [enhance_names]
    rw [hchars] at hc
    obtain ⟨c0, _, rfl⟩ := List.mem_map.mp hc
    rw [enhanceCharacter_relationships] at hr
    have hmem := (List.mem_filter.mp hr).2
    simpa [List.contains, List.elem_iff] using hmem
  · intro c hc hrole
    rw [hchars] at hc
    obtain ⟨c0, _, rfl⟩ := List.mem_map.mp hc
    rw [enhanceCharacter_role] at hrole
    exact enhanceCharacter_speech _ c0 hrole
  · exact List.sorted_insertionSort tsLe s.timeline
  · intro w hw himp
    have hrules : (enhanceSettingNote s).world_rules =
        s.world_rules.map enhanceWorldRule := rfl
    rw [hrules] at hw
    obtain ⟨w0, _, rfl⟩ := List.mem_map.mp hw
    rw [enhanceWorldRule_importance] at himp
    exact enhanceWorldRule_evidence w0 himp

/-- C10 witness: the sample note exercising a dangling reference, a
protagonist without a speech pattern, an unsorted timeline and a
critical rule without evidence. -/
theorem C10_enhance_witness :
    relSelf.character ∈ (enhanceSettingNote sampleNote).characters.map (·.name) ∧
    (∃ sp, (enhanceCharacter ["홍길동"] chProt).speech_pattern =
      some sp ∧ sp ≠ "") ∧
    List.Sorted tsLe (enhanceSettingNote sampleNote).timeline ∧
    (∃ ev, (enhanceWorldRule wrCrit).evidence = some ev ∧ ev ≠ "") := by
  have h := C10_enhance sampleNote
  refine ⟨h.1 (enhanceCharacter ["홍길동"] chProt) (by decide) relSelf (by decide),
    h.2.1 (enhanceCharacter ["홍길동"] chProt) (by decide) (by decide),
    h.2.2.1,
    h.2.2.2 (enhanceWorldRule wrCrit) (by decide) (by decide)⟩

theorem retryGo_cons {α : Type} (attempts : ℕ → Except String α) (i r : ℕ)
    (e0 : String) (he0 : attempts i = Except.error e0) (hr : ¬ r = 0) :
    retryGo attempts i (r + 1) =
      ((retryGo attempts (i + 1) r).1,
       backoffDelay i :: (retryGo attempts (i + 1) r).2) := by
  conv_lhs => rw [retryGo, he0]
  show (if r = 0 then (Except.error e0, ([] : List ℕ))
    else
      ((retryGo attempts (i + 1) r).1,
       backoffDelay i :: (retryGo attempts (i + 1) r).2)) = _
  rw [if_neg hr]

theorem backoff_range_shift (i k : ℕ) :
    backoffDelay i :: (List.range k).map (fun j => backoffDelay (i + 1 + j)) =
      (List.range (k + 1)).map fun j => backoffDelay (i + j) := by
  rw [List.range_succ_eq_map, List.map_cons, List.map_map]
  refine congrArg₂ _ (by rw [Nat.add_zero]) ?_
  refine List.map_congr_left fun j _ => ?_
  show backoffDelay (i + 1 + j) = backoffDelay (i + Nat.succ j)
  congr 1
  omega

theorem retryGo_success {α : Type} (attempts : ℕ → Except String α) (d : α) :
    ∀ (k i rem : ℕ), k < rem →
      (∀ j, j < k → ∃ e, attempts (i + j) = Except.error e) →
      attempts (i + k) = Except.ok d →
      retryGo attempts i rem =
        (Except.ok d, (List.range k).map fun j => backoffDelay (i + j))
  | 0, i, rem, hk, _, hok => by
    obtain ⟨r, rfl⟩ : ∃ r, rem = r + 1 := ⟨rem - 1, by omega⟩
    rw [Nat.add_zero] at hok
    simp [retryGo, hok]
  | k + 1, i, rem, hk, herr, hok => by
    obtain ⟨r, rfl⟩ : ∃ r, rem = r + 1 := ⟨rem - 1, by omega⟩
    obtain ⟨e0, he0⟩ := herr 0 (Nat.succ_pos k)
    rw [Nat.add_zero] at he0
    have hr : ¬ r = 0 := by omega
    have ih := retryGo_success attempts d k (i + 1) r (by omega)
      (fun j hj => by
        obtain ⟨e, he⟩ := herr (j + 1) (by omega)
        exact ⟨e, by rw [← he]; congr 1; omega⟩)
      (by rw [← hok]; congr 1; omega)
    rw [retryGo_cons attempts i r e0 he0 hr, ih]
    show (Except.ok d,
        backoffDelay i :: (List.range k).map fun j => backoffDelay (i + 1 + j)) =
      (Except.ok d, (List.range (k + 1)).map fun j => backoffDelay (i + j))
    rw [backoff_range_shift]

theorem retryGo_failure {α : Type} (attempts : ℕ → Except String α) (e : String) :
    ∀ (rem i : ℕ), 1 ≤ rem →
      attempts (i + (rem - 1)) = Except.error e →
      (∀ j, j < rem - 1 → ∃ er, attempts (i + j) = Except.error er) →
      retryGo attempts i rem =
        (Except.error e, (List.range (rem - 1)).map fun j => backoffDelay (i + j))
  | 0, i, h1, _, _ => by omega
  | 1, i, _, hlast, _ => by
    rw [Nat.add_zero] at hlast
    simp [retryGo, hlast]
  | r + 2, i, _, hlast, herr => by
    obtain ⟨e0, he0⟩ := herr 0 (by omega)
    rw [Nat.add_zero] at he0
    have ih := retryGo_failure attempts e (r + 1) (i + 1) (by omega)
      (by rw [← hlast]; congr 1; omega)
      (fun j hj => by
        obtain ⟨er, her⟩ := herr (j + 1) (by omega)
        exact ⟨er, by rw [← her]; congr 1; omega⟩)
    rw [retryGo_cons attempts i (r + 1) e0 he0 (by omega), ih]
    show (Except.error e,
        backoffDelay i :: (List.range r).map fun j => backoffDelay (i + 1 + j)) =
      (Except.error e, (List.range (r + 1)).map fun j => backoffDelay (i + j))
    rw [backoff_range_shift]

/-- C9: generateJSON never lets an exception past its boundary: the
result is always a success record carrying data or a failure record
carrying an error; the default retry ceiling is 3; an attempt that fails
(transport or parse/validation alike, both modelled as an error outcome)
is retried after a delay of min(1000 times 2 to the attempt, 10000)
until the ceiling, after which the last error is returned as a
failure value rather than thrown. -/
theorem C9_adapter {α : Type} (attempts : ℕ → Except String (α × Option RawUsage))
    (n : ℕ) :
    resolveMaxRetries none = 3 ∧
    (∀ cfg, resolveMaxRetries (some cfg) = cfg) ∧
    (∀ i, backoffDelay i = min (1000 * 2 ^ i) 10000) ∧
    (((generateJSON attempts n).1.success = true ∧
      (generateJSON attempts n).1.error = none ∧
      ∃ d, (generateJSON attempts n).1.data = some d) ∨
     ((generateJSON attempts n).1.success = false ∧
      (generateJSON attempts n).1.data = none ∧
      ∃ e, (generateJSON attempts n).1.error = some e)) ∧
    (∀ k d, k < n →
      (∀ j, j < k → ∃ e, attempts j = Except.error e) →
      attempts k = Except.ok d →
      generateJSON attempts n =
        ({ success := true
           data := some d.1
           error := none
           usage := normalizeUsage d.2 },
         (List.range k).map backoffDelay)) ∧
    (∀ e, 1 ≤ n →
      attempts (n - 1) = Except.error e →
      (∀ j, j < n - 1 → ∃ er, attempts j = Except.error er) →
      generateJSON attempts n =
        ({ success := false, data := none, error := some e, usage := none },
         (List.range (n - 1)).map backoffDelay)) := by
  refine ⟨rfl, fun _ => rfl, fun _ => rfl, ?_, ?_, ?_⟩
  · rcases hr : retryWithBackoff attempts n with ⟨out, ds⟩
    cases out with
    | ok v =>
      left
      refine ⟨?_, ?_, v.1, ?_⟩ <;> simp [generateJSON, hr]
    | error e =>
      right
      refine ⟨?_, ?_, e, ?_⟩ <;> simp [generateJSON, hr]
  · intro k d hk herr hok
    have h := retryGo_success attempts d k 0 n hk
      (fun j hj => by
        obtain ⟨e, he⟩ := herr j hj
        exact ⟨e, by rw [Nat.zero_add]; exact he⟩)
      (by rw [Nat.zero_add]; exact hok)
    show (match retryWithBackoff attempts n with
      | (Except.ok result, delays) => _
      | (Except.error e, delays) => _) = _
    rw [retryWithBackoff, h]
    simp [Nat.zero_add]
  · intro e h1 hlast herr
    have h := retryGo_failure attempts e n 0 h1
      (by rw [Nat.zero_add]; exact hlast)
      (fun j hj => by
        obtain ⟨er, her⟩ := herr j hj
        exact ⟨er, by rw [Nat.zero_add]; exact her⟩)
    show (match retryWithBackoff attempts n with
      | (Except.ok result, delays) => _
      | (Except.error e, delays) => _) = _
    rw [retryWithBackoff, h]
    simp [Nat.zero_add]

/-- C9 witness: a trace whose first attempt fails and second succeeds,
run at the default ceiling of 3: one backoff delay is slept and the
success value is returned. -/
theorem C9_adapter_witness :
    generateJSON attemptsW (resolveMaxRetries none) =
      ({ success := true, data := some 7, error := none, usage := none },
       [backoffDelay 0]) := by
  have h := (C9_adapter attemptsW 3).2.2.2.2.1 1 ((7 : ℕ), (none : Option RawUsage))
    (by omega)
    (fun j hj => ⟨"boom", by
      have hj0 : j = 0 := by omega
      subst hj0
      rfl⟩)
    rfl
  simpa [normalizeUsage, List.range_succ] using h

end PageAtelier
